import Mathlib

/-!
Verification development for the carbon-accounting document pipeline:
a shallow embedding of `scripts/pdf_processor.py` (class `AdvancedPDFProcessor`)
and `src/agents/data-recognition/agent.py`, with theorems checking the
specification's claims against the embedded code.

Python strings are modelled as `List Char` (`PyStr`): Python's `len`, slicing
`[:n]`, `.lower()`, `.strip()` and the `in` substring test become list
operations.  Machine-level numerics (floats) are modelled as `ℚ`.  I/O-bound
extraction libraries (pdfplumber, pytesseract, tabula, camelot) and the
OpenAI call are modelled by passing their results (or, for the fallible
service call, an `Except`-valued oracle) as explicit parameters.
-/

/-- A Python string: a sequence of characters. -/
abbrev PyStr := List Char

/-- Coerce a Lean string literal to the `PyStr` model. -/
def pystr (s : String) : PyStr := s.toList

/-- Python `str.lower()` (ASCII case folding, which covers every keyword and
filename the classifier compares). -/
def pyLower (s : PyStr) : PyStr := s.map Char.toLower

/-- Python `str.strip()`: drop whitespace from both ends. -/
def pyStrip (s : PyStr) : PyStr :=
  ((s.dropWhile Char.isWhitespace).reverse.dropWhile Char.isWhitespace).reverse

/-- Does `needle` occur at the start of the list? (helper for the Python
`in` substring test). -/
def hasPfx : PyStr → PyStr → Bool
  | _, [] => true
  | [], _ :: _ => false
  | a :: as, b :: bs => a == b && hasPfx as bs

/-- Python `needle in hay` substring test. -/
def pyContains : PyStr → PyStr → Bool
  | [], needle => needle.isEmpty
  | a :: t, needle => hasPfx (a :: t) needle || pyContains t needle

/-- Python `str.split()` helper: accumulate the current word (reversed) while
scanning. -/
def pyWordsGo : PyStr → PyStr → List PyStr
  | acc, [] => if acc.isEmpty then [] else [acc.reverse]
  | acc, c :: t =>
    if c.isWhitespace then
      if acc.isEmpty then pyWordsGo [] t else acc.reverse :: pyWordsGo [] t
    else pyWordsGo (c :: acc) t

/-- Python `str.split()` with no argument: split on whitespace runs,
discarding empty tokens. -/
def pyWords (s : PyStr) : List PyStr := pyWordsGo [] s

/-- `Path(p).name` / `os.path.basename`: the component after the last slash. -/
def pathName (p : PyStr) : PyStr :=
  (p.reverse.takeWhile (fun c => c ≠ '/')).reverse

/-! ## Embedding of `src/agents/data-recognition/agent.py` -/

/-- A Python scalar value as it appears in the agent's mapped-data dicts
(the carbon schema holds only scalars: strings and numbers; `none` models
a Python `None`).  Ints and floats are both modelled as `ℚ`. -/
inductive PyValue where
  | none
  | str (s : String)
  | num (q : ℚ)
  | bool (b : Bool)
deriving Repr, DecidableEq

/-- Python truthiness test, negated: `not v` is true exactly on falsy values
(`None`, empty string, numeric zero, `False`). -/
def PyValue.falsy : PyValue → Bool
  | .none => true
  | .str s => s.isEmpty
  | .num q => decide (q = 0)
  | .bool b => !b

/-- A Python dict with string keys, as an association list (insertion order,
first binding wins as in `dict.get`). -/
abbrev PyDict := List (String × PyValue)

/-- Python `d.get(k)`: `Option.none` models the default `None`. -/
def dictGet (d : PyDict) (k : String) : Option PyValue :=
  (d.find? (fun p => p.1 == k)).map (fun p => p.2)

/-- Result of `detect_file_type`. -/
structure FileInfo where
  type : String
  name : String
  extension : String
  path : String
  filename : String
deriving Repr, DecidableEq

/-- The `file_types` lookup table of `detect_file_type`
(extension, type, display name). -/
def file_types : List (String × String × String) :=
  [(".pdf", "pdf", "PDF Document"),
   (".xlsx", "excel", "Excel Spreadsheet"),
   (".xls", "excel", "Excel Spreadsheet"),
   (".csv", "csv", "CSV File"),
   (".jpg", "image", "JPEG Image"),
   (".jpeg", "image", "JPEG Image"),
   (".png", "image", "PNG Image"),
   (".txt", "text", "Text Document")]

/-- `os.path.splitext(p)[1]` for a plain file name: the final dot-suffix
(including the dot), empty when the name has no dot. -/
def splitextExt (p : String) : String :=
  let parts := p.splitOn "."
  if parts.length ≤ 1 then "" else "." ++ parts.getLastD ""

/-- `os.path.basename`. -/
def osBasename (p : String) : String := (p.splitOn "/").getLastD p

/-- `detect_file_type`: look the lower-cased extension up in `file_types`,
falling back to the unknown entry. -/
def detect_file_type (file_path : String) : FileInfo :=
  let file_extension := (splitextExt file_path).toLower
  match file_types.find? (fun t => t.1 == file_extension) with
  | some t =>
    { type := t.2.1, name := t.2.2, extension := file_extension,
      path := file_path, filename := osBasename file_path }
  | Option.none =>
    { type := "unknown", name := "Unknown File Type", extension := file_extension,
      path := file_path, filename := osBasename file_path }

/-- Result of `extract_text_from_file` (a placeholder extractor in the
source). -/
structure ExtractedData where
  file_type : String
  file_path : String
  text_content : String
  extraction_method : String
  timestamp : String
deriving Repr, DecidableEq

/-- `extract_text_from_file`; `now` stands for `datetime.now().isoformat()`. -/
def extract_text_from_file (file_path : String) (now : String) : ExtractedData :=
  { file_type := (detect_file_type file_path).type,
    file_path := file_path,
    text_content := "Extracted content from " ++ file_path,
    extraction_method := "placeholder",
    timestamp := now }

/-- Result of `map_to_carbon_schema`: the outer dict with the inner
`mapped_data` record. -/
structure MappedData where
  mapped_data : PyDict
  confidence : ℚ
  original_file : String
  requires_review : Bool
deriving Repr, DecidableEq

/-- `map_to_carbon_schema`: the source returns a fixed schema template;
`nowYear` stands for `datetime.now().year`. -/
def map_to_carbon_schema (extracted_data : ExtractedData) (nowYear : Int) : MappedData :=
  { mapped_data :=
      [("date", .str "YYYY-MM-DD"),
       ("type", .str "electricity"),
       ("region", .str "country/region"),
       ("amount", .num 0),
       ("amount_unit", .str "kWh"),
       ("year", .num (nowYear : ℚ)),
       ("supplier", .str "supplier name"),
       ("energy_source", .str "renewable/fossil/mixed"),
       ("connection_type", .str "grid/direct"),
       ("loss_factor", .num 0),
       ("recs", .str "yes/no/unknown"),
       ("invoice_id", .str "reference number"),
       ("description", .str "Additional context")],
    confidence := 0.85,
    original_file := extracted_data.file_path,
    requires_review := true }

/-- Result of `validate_mapped_data`. -/
structure ValidationResult where
  is_valid : Bool
  missing_fields : List String
  warnings : List String
  mapped_data : MappedData
deriving Repr, DecidableEq

/-- The `required_fields` list of `validate_mapped_data`. -/
def required_fields : List String := ["date", "type", "amount", "amount_unit"]

/-- The per-field test of `validate_mapped_data`:
`if not data.get(field) or data.get(field) == "unknown"`. -/
def fieldReportedMissing (data : PyDict) (f : String) : Bool :=
  match dictGet data f with
  | Option.none => true
  | some v => v.falsy || decide (v = .str "unknown")

/-- `validate_mapped_data`: collect required fields whose value is absent,
falsy or the literal `"unknown"`. -/
def validate_mapped_data (mapped : MappedData) : ValidationResult :=
  let data := mapped.mapped_data
  let missing_fields := required_fields.filter (fun f => fieldReportedMissing data f)
  { is_valid := missing_fields.length == 0,
    missing_fields := missing_fields,
    warnings := [],
    mapped_data := mapped }

/-- Result of `process_file`. -/
structure ProcessFileResult where
  success : Bool
  data : MappedData
  file_info : FileInfo
  missing_fields : List String
  requires_review : Bool
  warnings : List String
  processed_at : String
deriving Repr, DecidableEq

/-- `process_file`: detect → extract → map → validate, then assemble the
response record; `requires_review` is `len(missing_fields) > 0`. -/
def process_file (file_path : String) (nowYear : Int) (now : String) : ProcessFileResult :=
  let file_type := detect_file_type file_path
  let extracted_data := extract_text_from_file file_path now
  let mapped_data := map_to_carbon_schema extracted_data nowYear
  let validated_data := validate_mapped_data mapped_data
  { success := validated_data.is_valid,
    data := validated_data.mapped_data,
    file_info := file_type,
    missing_fields := validated_data.missing_fields,
    requires_review := decide (validated_data.missing_fields.length > 0),
    warnings := validated_data.warnings,
    processed_at := now }

/-! ## Embedding of `scripts/pdf_processor.py` (`AdvancedPDFProcessor`) -/

/-- A table row: an ordered mapping column name → cell value
(`df.to_dict('records')` entries). -/
abbrev Row := List (String × String)

/-- A pandas DataFrame returned by `tabula.read_pdf`, abstracted to its
record list. -/
structure TabulaFrame where
  records : List Row
deriving Repr, DecidableEq

/-- One table dict produced by `extract_with_camelot`. -/
structure CamelotTable where
  table_num : Nat
  accuracy : ℚ
  whitespace : ℚ
  records : List Row
deriving Repr, DecidableEq

/-- A table dict as it sits in the unified `all_tables` list: either a
pdfplumber table dict (page, table number, headers, records — no source tag)
or a tabula table dict tagged `'source': 'tabula'`. -/
inductive UnifiedTable where
  | native (page : Nat) (table_num : Nat) (headers : List String) (records : List Row)
  | tabula (table_num : Nat) (records : List Row)
deriving Repr, DecidableEq

/-- Is this a tabula-tagged table dict? -/
def UnifiedTable.isTabula : UnifiedTable → Bool
  | .native _ _ _ _ => false
  | .tabula _ _ => true

/-- Result dict of `extract_text_with_pdfplumber` (the per-page list and the
title/author metadata are diagnostic only and not consumed by the pipeline,
so they are omitted from the model). -/
structure PdfplumberResult where
  text : PyStr
  tables : List UnifiedTable
  error : Option String
deriving Repr, DecidableEq

/-- Mean token confidence of one OCR page (lines 199–200 of the source):
`confidences = [int(conf) for conf in ocr_data['conf'] if int(conf) > 0]`
then `np.mean(confidences) if confidences else 0`. -/
def avg_confidence (token_confs : List Int) : ℚ :=
  let confidences := token_confs.filter (fun c => decide (0 < c))
  if confidences.isEmpty then 0
  else (confidences.map (fun c : ℤ => (c : ℚ))).sum / (confidences.length : ℚ)

/-- One entry of the OCR result's `pages` list. -/
structure OcrPage where
  page_number : Nat
  text : PyStr
  confidence : ℚ
  word_count : Nat
deriving Repr, DecidableEq

/-- Result dict of `ocr_with_pytesseract`. -/
structure OcrResult where
  text : PyStr
  pages : List OcrPage
  confidence : List ℚ
  error : Option String
deriving Repr, DecidableEq

/-- What pytesseract reports for one successfully rasterized page: the
recognized text and the token confidence column of `image_to_data`. -/
structure OcrPageInput where
  text : PyStr
  token_confs : List Int
deriving Repr, DecidableEq

/-- The page dict built inside `ocr_with_pytesseract` for 0-based page index
`page_num`. -/
def ocr_page_result (page_num : Nat) (inp : OcrPageInput) : OcrPage :=
  { page_number := page_num + 1,
    text := inp.text,
    confidence := avg_confidence inp.token_confs,
    word_count := (pyWords inp.text).length }

/-- `ocr_with_pytesseract`, with each page's rasterize-and-recognize step
modelled as an `Except` (a raising page is logged and skipped, leaving it
absent from the result). -/
def ocr_with_pytesseract (page_inputs : List (Except String OcrPageInput)) : OcrResult :=
  (page_inputs.enum).foldl
    (fun acc pi =>
      match pi.2 with
      | .error _ => acc
      | .ok inp =>
        let page := ocr_page_result pi.1 inp
        { acc with
          pages := acc.pages ++ [page],
          text := acc.text ++ pystr "\n--- Page " ++ pystr (toString (pi.1 + 1))
                    ++ pystr " (OCR) ---\n" ++ inp.text,
          confidence := acc.confidence ++ [page.confidence] })
    { text := [], pages := [], confidence := [], error := Option.none }

/-- Filename keywords for `fuel_receipt` in `classify_document_type`. -/
def fuel_filename_words : List PyStr :=
  [pystr "fuel", pystr "gas", pystr "benzine", pystr "diesel"]

/-- Filename keywords for `utility_bill`. -/
def utility_filename_words : List PyStr :=
  [pystr "electric", pystr "energie", pystr "utility", pystr "strom"]

/-- Filename keywords for `travel_expense`. -/
def travel_filename_words : List PyStr :=
  [pystr "travel", pystr "flight", pystr "hotel", pystr "ticket"]

/-- Filename keywords for `purchase_invoice`. -/
def invoice_filename_words : List PyStr :=
  [pystr "invoice", pystr "factuur", pystr "bill"]

/-- Content keywords for `fuel_receipt`. -/
def fuel_content_words : List PyStr :=
  [pystr "fuel", pystr "gasoline", pystr "diesel", pystr "petrol", pystr "pump"]

/-- Content keywords for `utility_bill`. -/
def utility_content_words : List PyStr :=
  [pystr "kwh", pystr "electricity", pystr "energy", pystr "meter"]

/-- Content keywords for `travel_expense`. -/
def travel_content_words : List PyStr :=
  [pystr "flight", pystr "airline", pystr "hotel", pystr "travel"]

/-- `classify_document_type(text, filename)`: filename keyword branches
first, then content keyword branches, else `other`.  Note the content
branches cover only the fuel, utility and travel families — there is no
content branch for the invoice family. -/
def classify_document_type (text filename : PyStr) : String :=
  let filename_lower := pyLower filename
  let text_lower := pyLower text
  if fuel_filename_words.any (fun w => pyContains filename_lower w) then "fuel_receipt"
  else if utility_filename_words.any (fun w => pyContains filename_lower w) then "utility_bill"
  else if travel_filename_words.any (fun w => pyContains filename_lower w) then "travel_expense"
  else if invoice_filename_words.any (fun w => pyContains filename_lower w) then "purchase_invoice"
  else if fuel_content_words.any (fun w => pyContains text_lower w) then "fuel_receipt"
  else if utility_content_words.any (fun w => pyContains text_lower w) then "utility_bill"
  else if travel_content_words.any (fun w => pyContains text_lower w) then "travel_expense"
  else "other"

/-- One entry of the structured-extraction response. -/
structure CarbonEntry where
  date : String
  activity_description : String
  quantity : Option ℚ
  unit : String
  supplier_vendor : String
  cost : Option ℚ
  currency : String
  invoice_id : String
  ghg_scope : String
  confidence_score : ℚ
  notes : String
deriving Repr, DecidableEq

/-- The parsed JSON result of the structured-extraction call (also the shape
of the degraded default built on failure). -/
structure AIResult where
  document_type : String
  extraction_confidence : ℚ
  entries : List CarbonEntry
  warnings : List String
  suggestions : List String
deriving Repr, DecidableEq

/-- The request payload `extract_carbon_data_with_ai` embeds in its prompt:
the document type, `text[:5000]`, and `tables[:3]`. -/
structure AIRequest where
  document_type : String
  text : PyStr
  tables : List UnifiedTable
deriving Repr, DecidableEq

/-- Build the bounded request payload (lines 255–264 of the source:
`{text[:5000]}` and `json.dumps(tables[:3], ...)`). -/
def buildAIRequest (text : PyStr) (tables : List UnifiedTable) (document_type : String) : AIRequest :=
  { document_type := document_type, text := text.take 5000, tables := tables.take 3 }

/-- `extract_carbon_data_with_ai`.  The OpenAI round trip plus
`json.loads` is the `service` oracle: `.error e` models any raised
exception (network error, malformed response, non-JSON payload str(e)).
On failure the function returns the degraded literal of lines 316–322. -/
def extract_carbon_data_with_ai (text : PyStr) (tables : List UnifiedTable)
    (document_type : String) (service : AIRequest → Except String AIResult) : AIResult :=
  match service (buildAIRequest text tables document_type) with
  | .ok result => result
  | .error e =>
    { document_type := document_type,
      extraction_confidence := 0,
      entries := [],
      warnings := ["AI processing failed: " ++ e],
      suggestions := ["Manual review required"] }

/-- The `processing_results` sub-dict of the final record. -/
structure ProcessingResults where
  pdfplumber : PdfplumberResult
  ocr : Option OcrResult
  tabula_tables : Nat
  camelot_tables : Nat
deriving Repr, DecidableEq

/-- The `summary` sub-dict of the final record. -/
structure ResultSummary where
  entries_extracted : Nat
  confidence : ℚ
  requires_review : Bool
deriving Repr, DecidableEq

/-- The final per-document record of `process_pdf_comprehensive`. -/
structure FinalResult where
  filename : PyStr
  processing_timestamp : String
  extraction_method : String
  document_type : String
  text_length : Nat
  tables_found : Nat
  processing_results : ProcessingResults
  carbon_data : AIResult
  summary : ResultSummary
deriving Repr, DecidableEq

/-- The tabula dicts appended to `all_tables`:
`{'source': 'tabula', 'table_num': i + 1, 'data': df.to_dict('records')}`. -/
def tagTabulaTables (tabula_tables : List TabulaFrame) : List UnifiedTable :=
  tabula_tables.enum.map (fun p => UnifiedTable.tabula (p.1 + 1) p.2.records)

/-- `process_pdf_comprehensive`.  Adapter calls are I/O, so their results
are parameters: `pdfplumber_result` is what `extract_text_with_pdfplumber`
returned, `ocr_if_scanned` is what `ocr_with_pytesseract` would return (it
is consulted only when the stripped native text has fewer than 100
characters, matching the lazy invocation), `tabula_tables` and
`camelot_tables` are the alternate-extractor outputs, and `service` is the
structured-extraction oracle.

In the source, `all_tables = pdfplumber_result.get('tables', [])` aliases
the pdfplumber result's own list, and the subsequent `all_tables.append(...)`
calls mutate it in place; the record therefore reports the appended list
under `processing_results['pdfplumber']['tables']` as well, which the model
reflects by storing `all_tables` there. -/
def process_pdf_comprehensive (pdf_path : PyStr) (now : String)
    (pdfplumber_result : PdfplumberResult) (ocr_if_scanned : OcrResult)
    (tabula_tables : List TabulaFrame) (camelot_tables : List CamelotTable)
    (service : AIRequest → Except String AIResult) : FinalResult :=
  let filename := pathName pdf_path
  let text_length := (pyStrip pdfplumber_result.text).length
  let ocr_result : Option OcrResult :=
    if text_length < 100 then some ocr_if_scanned else Option.none
  let primary0 := pdfplumber_result.text
  let chosen : PyStr × String :=
    match ocr_result with
    | some o =>
      if o.text.length > primary0.length then (o.text, "ocr") else (primary0, "pdfplumber")
    | Option.none => (primary0, "pdfplumber")
  let primary_text := chosen.1
  let extraction_method := chosen.2
  let all_tables := pdfplumber_result.tables ++ tagTabulaTables tabula_tables
  let document_type := classify_document_type primary_text filename
  let ai_result := extract_carbon_data_with_ai primary_text all_tables document_type service
  { filename := filename,
    processing_timestamp := now,
    extraction_method := extraction_method,
    document_type := document_type,
    text_length := primary_text.length,
    tables_found := all_tables.length,
    processing_results :=
      { pdfplumber := { pdfplumber_result with tables := all_tables },
        ocr := ocr_result,
        tabula_tables := tabula_tables.length,
        camelot_tables := camelot_tables.length },
    carbon_data := ai_result,
    summary :=
      { entries_extracted := ai_result.entries.length,
        confidence := ai_result.extraction_confidence,
        requires_review := decide (ai_result.extraction_confidence < 0.8) } }

/-- One element of the batch `results` list: a full document record on
success, or the error placeholder dict of lines 426–430. -/
inductive BatchItem where
  | ok (r : FinalResult)
  | err (filename : PyStr) (error : String) (processing_timestamp : String)
deriving Repr, DecidableEq

/-- The `batch_summary` dict of `batch_process_pdfs`. -/
structure BatchSummary where
  batch_id : String
  total_files : Nat
  successful : Nat
  failed : Nat
  success_rate : ℚ
  processing_timestamp : String
  results : List BatchItem
deriving Repr, DecidableEq

/-- One iteration of the batch loop: run the single-document pipeline inside
the failure boundary.  `pipeline p = .error e` models
`process_pdf_comprehensive` raising with message `str(e)`. -/
def batchItem (pipeline : PyStr → Except String FinalResult) (now : String)
    (p : PyStr) : BatchItem :=
  match pipeline p with
  | .ok r => .ok r
  | .error e => .err (pathName p) e now

/-- `batch_process_pdfs`: map the guarded pipeline over the inputs in order,
count successes and failures, and compute
`success_rate = successful / len(pdf_paths) if pdf_paths else 0`.
The per-item and summary JSON file writes are side effects outside the
model. -/
def batch_process_pdfs (pipeline : PyStr → Except String FinalResult)
    (now batch_id : String) (pdf_paths : List PyStr) : BatchSummary :=
  let results := pdf_paths.map (batchItem pipeline now)
  let successful := results.countP (fun r => match r with | .ok _ => true | .err _ _ _ => false)
  let failed := results.countP (fun r => match r with | .ok _ => false | .err _ _ _ => true)
  { batch_id := batch_id,
    total_files := pdf_paths.length,
    successful := successful,
    failed := failed,
    success_rate := if pdf_paths.isEmpty then 0 else (successful : ℚ) / (pdf_paths.length : ℚ),
    processing_timestamp := now,
    results := results }

/-! ## Shared helper lemmas and sample values -/

/-- Counting the `ok` items and the `err` items of a batch partitions it. -/
theorem batchItem_countP_split (l : List BatchItem) :
    l.countP (fun r => match r with | .ok _ => true | .err _ _ _ => false) +
      l.countP (fun r => match r with | .ok _ => false | .err _ _ _ => true) = l.length := by
  induction l with
  | nil => rfl
  | cons a t ih =>
    cases a <;> simp [List.countP_cons] <;> omega

/-- An empty pdfplumber result, used as a concrete sample input. -/
def emptyPr : PdfplumberResult := { text := [], tables := [], error := Option.none }

/-- An empty OCR result, used as a concrete sample input. -/
def emptyOcr : OcrResult := { text := [], pages := [], confidence := [], error := Option.none }

/-! ## Claims -/

/-- Claim C1: whenever the structured-extraction service call fails (the
oracle returns an error for the request this input builds),
`extract_carbon_data_with_ai` does not propagate the failure and returns a
result with exactly 0 entries, extraction confidence 0.0, exactly the one
warning naming the failure, and the manual-review suggestion. -/
theorem extract_carbon_data_with_ai_degrades
    (text : PyStr) (tables : List UnifiedTable) (document_type : String)
    (service : AIRequest → Except String AIResult) (e : String)
    (h : service (buildAIRequest text tables document_type) = .error e) :
    (extract_carbon_data_with_ai text tables document_type service).entries.length = 0 ∧
    (extract_carbon_data_with_ai text tables document_type service).extraction_confidence = 0 ∧
    (extract_carbon_data_with_ai text tables document_type service).warnings
      = ["AI processing failed: " ++ e] ∧
    1 ≤ (extract_carbon_data_with_ai text tables document_type service).warnings.length ∧
    (extract_carbon_data_with_ai text tables document_type service).suggestions
      = ["Manual review required"] ∧
    (extract_carbon_data_with_ai text tables document_type service).document_type
      = document_type := by
  simp [extract_carbon_data_with_ai, h]

/-- Witness for C1 at a concrete failing service. -/
theorem extract_carbon_data_with_ai_degrades_witness :
    (extract_carbon_data_with_ai (pystr "some text") [] "other"
        (fun _ => .error "connection refused")).entries.length = 0 ∧
    (extract_carbon_data_with_ai (pystr "some text") [] "other"
        (fun _ => .error "connection refused")).extraction_confidence = 0 ∧
    (extract_carbon_data_with_ai (pystr "some text") [] "other"
        (fun _ => .error "connection refused")).warnings
      = ["AI processing failed: " ++ "connection refused"] ∧
    1 ≤ (extract_carbon_data_with_ai (pystr "some text") [] "other"
        (fun _ => .error "connection refused")).warnings.length ∧
    (extract_carbon_data_with_ai (pystr "some text") [] "other"
        (fun _ => .error "connection refused")).suggestions = ["Manual review required"] ∧
    (extract_carbon_data_with_ai (pystr "some text") [] "other"
        (fun _ => .error "connection refused")).document_type = "other" :=
  extract_carbon_data_with_ai_degrades (pystr "some text") [] "other"
    (fun _ => .error "connection refused") "connection refused" rfl

/-- Claim C6: the request payload carries the primary text truncated to at
most 5000 characters, exactly the first 3 unified tables in order, and the
document type; a successfully parsed response is returned unchanged, so the
number of entries is not bounded by this layer. -/
theorem ai_request_bounded
    (text : PyStr) (tables : List UnifiedTable) (document_type : String)
    (service : AIRequest → Except String AIResult) :
    (buildAIRequest text tables document_type).text.length ≤ 5000 ∧
    (buildAIRequest text tables document_type).text = text.take 5000 ∧
    (buildAIRequest text tables document_type).tables = tables.take 3 ∧
    (buildAIRequest text tables document_type).tables.length ≤ 3 ∧
    (buildAIRequest text tables document_type).document_type = document_type ∧
    ∀ r : AIResult, service (buildAIRequest text tables document_type) = .ok r →
      extract_carbon_data_with_ai text tables document_type service = r := by
  refine ⟨?_, rfl, rfl, ?_, rfl, ?_⟩
  · simp [buildAIRequest]
  · simp [buildAIRequest]
  · intro r h
    simp [extract_carbon_data_with_ai, h]

/-- A concrete structured-extraction entry for sample responses. -/
def sampleEntry : CarbonEntry :=
  { date := "2024-01-01", activity_description := "Diesel purchase",
    quantity := some 50, unit := "liters", supplier_vendor := "Shell",
    cost := some 80, currency := "EUR", invoice_id := "INV-1",
    ghg_scope := "Scope 1", confidence_score := 0.9, notes := "" }

/-- A concrete parsed service response with four entries (more entries than
the three-table bound, showing the entry count is not truncated). -/
def sampleResp : AIResult :=
  { document_type := "fuel_receipt", extraction_confidence := 0.9,
    entries := [sampleEntry, sampleEntry, sampleEntry, sampleEntry],
    warnings := [], suggestions := [] }

/-- Witness for C6 at a concrete input and a concrete succeeding service. -/
theorem ai_request_bounded_witness :
    (buildAIRequest (pystr "fuel 50L") [] "fuel_receipt").text.length ≤ 5000 ∧
    (buildAIRequest (pystr "fuel 50L") [] "fuel_receipt").tables.length ≤ 3 ∧
    extract_carbon_data_with_ai (pystr "fuel 50L") [] "fuel_receipt"
        (fun _ => .ok sampleResp) = sampleResp ∧
    sampleResp.entries.length = 4 := by
  have h := ai_request_bounded (pystr "fuel 50L") [] "fuel_receipt" (fun _ => .ok sampleResp)
  exact ⟨h.1, h.2.2.2.1, h.2.2.2.2.2 sampleResp rfl, rfl⟩

/-- Counterexample to claim C5 as stated: the filename `doc.pdf` matches no
keyword family, the text is exactly `invoice` (an invoice/bill-family
keyword, and no other family's keyword), yet the classifier returns
`other`, not `purchase_invoice` — the content-based branches have no
invoice family. -/
theorem classify_invoice_content_counterexample :
    classify_document_type (pystr "invoice") (pystr "doc.pdf") = "other" ∧
    classify_document_type (pystr "invoice") (pystr "doc.pdf") ≠ "purchase_invoice" ∧
    pyContains (pyLower (pystr "invoice")) (pystr "invoice") = true ∧
    ((fuel_filename_words ++ utility_filename_words ++ travel_filename_words
        ++ invoice_filename_words).all
      (fun w => !(pyContains (pyLower (pystr "doc.pdf")) w))) = true ∧
    ((fuel_content_words ++ utility_content_words ++ travel_content_words).all
      (fun w => !(pyContains (pyLower (pystr "invoice")) w))) = true := by
  refine ⟨by decide, by decide, by decide, by decide, by decide⟩

/-- Claim C5 (amended): filename keyword matching takes precedence and uses
the four filename families, but content matching covers only the fuel,
utility and travel content families — there is no invoice/bill content
family.  For every input whose filename matches no family and whose text
matches none of the content families, the result is `other`: this covers
both the text that contains an invoice/bill keyword (and no content-family
keyword), where the original claim asserted `purchase_invoice`, and the
text that matches no family at all. -/
theorem classify_no_content_invoice_family (text filename : PyStr)
    (hf1 : fuel_filename_words.any (fun w => pyContains (pyLower filename) w) = false)
    (hf2 : utility_filename_words.any (fun w => pyContains (pyLower filename) w) = false)
    (hf3 : travel_filename_words.any (fun w => pyContains (pyLower filename) w) = false)
    (hf4 : invoice_filename_words.any (fun w => pyContains (pyLower filename) w) = false)
    (hc1 : fuel_content_words.any (fun w => pyContains (pyLower text) w) = false)
    (hc2 : utility_content_words.any (fun w => pyContains (pyLower text) w) = false)
    (hc3 : travel_content_words.any (fun w => pyContains (pyLower text) w) = false) :
    classify_document_type text filename = "other" := by
  simp only [classify_document_type, hf1, hf2, hf3, hf4, hc1, hc2, hc3,
    Bool.false_eq_true, if_false]

/-- Witness for the amended C5 at filename `doc.pdf` with both clauses'
texts: `invoice` (an invoice/bill keyword that content matching ignores)
and `hello` (no family keyword at all). -/
theorem classify_no_content_invoice_family_witness :
    classify_document_type (pystr "invoice") (pystr "doc.pdf") = "other" ∧
    classify_document_type (pystr "hello") (pystr "doc.pdf") = "other" :=
  ⟨classify_no_content_invoice_family (pystr "invoice") (pystr "doc.pdf")
    (by decide) (by decide) (by decide) (by decide)
    (by decide) (by decide) (by decide),
   classify_no_content_invoice_family (pystr "hello") (pystr "doc.pdf")
    (by decide) (by decide) (by decide) (by decide)
    (by decide) (by decide) (by decide)⟩

/-- Counterexample to claim C8 as stated: in this mapped record every
required field is present and none equals `"unknown"` (the amount is the
number 0), so the claim says `missing_fields` is empty and `is_valid` is
true; the code reports `amount` and invalidates the record, because the
test uses Python truthiness, not presence. -/
theorem validate_zero_amount_counterexample :
    (validate_mapped_data
      { mapped_data :=
          [("date", .str "2024-01-01"), ("type", .str "electricity"),
           ("amount", .num 0), ("amount_unit", .str "kWh")],
        confidence := 0.85, original_file := "f.pdf", requires_review := true }).missing_fields
      = ["amount"] ∧
    (validate_mapped_data
      { mapped_data :=
          [("date", .str "2024-01-01"), ("type", .str "electricity"),
           ("amount", .num 0), ("amount_unit", .str "kWh")],
        confidence := 0.85, original_file := "f.pdf", requires_review := true }).is_valid
      = false ∧
    dictGet
      [("date", .str "2024-01-01"), ("type", .str "electricity"),
       ("amount", .num 0), ("amount_unit", .str "kWh")] "amount" = some (.num 0) ∧
    PyValue.num 0 ≠ PyValue.str "unknown" := by
  refine ⟨by decide, by decide, by decide, by decide⟩

/-- Claim C8 (amended): a required field is reported in `missing_fields`
exactly when it is absent, has a falsy value (such as 0, 0.0 or the empty
string), or equals the literal `"unknown"`; `is_valid` holds iff that list
is empty, and `process_file` sets `requires_review` iff the list is
non-empty. -/
theorem validate_missing_fields_amended (m : MappedData) :
    (∀ f : String,
       f ∈ (validate_mapped_data m).missing_fields ↔
         f ∈ required_fields ∧
           (dictGet m.mapped_data f).elim True
             (fun v => v.falsy = true ∨ v = PyValue.str "unknown")) ∧
    ((validate_mapped_data m).is_valid = true ↔
       (validate_mapped_data m).missing_fields = []) ∧
    (∀ (path : String) (nowYear : Int) (now : String),
       (process_file path nowYear now).requires_review = true ↔
         (process_file path nowYear now).missing_fields ≠ []) := by
  refine ⟨?_, ?_, ?_⟩
  · intro f
    simp only [validate_mapped_data, List.mem_filter, fieldReportedMissing]
    cases h : dictGet m.mapped_data f with
    | none => simp [h]
    | some v => simp [h, Option.elim, decide_eq_true_iff]
  · simp only [validate_mapped_data]
    simp
  · intro path nowYear now
    simp only [process_file]
    simp [← List.length_pos_iff_ne_nil]

/-- Claim C10: any required field present with a falsy value (0, 0.0, the
empty string, …) is reported in `missing_fields`, and the record is
invalid. -/
theorem validate_falsy_field_reported (m : MappedData) (f : String) (v : PyValue)
    (hreq : f ∈ required_fields)
    (hget : dictGet m.mapped_data f = some v)
    (hfalsy : v.falsy = true) :
    f ∈ (validate_mapped_data m).missing_fields ∧
    (validate_mapped_data m).is_valid = false := by
  have hmem : f ∈ (validate_mapped_data m).missing_fields := by
    simp only [validate_mapped_data, List.mem_filter, fieldReportedMissing, hget]
    exact ⟨hreq, by simp [hfalsy]⟩
  refine ⟨hmem, ?_⟩
  have hne : (validate_mapped_data m).missing_fields ≠ [] := by
    intro hnil
    rw [hnil] at hmem
    exact absurd hmem (List.not_mem_nil f)
  simp only [validate_mapped_data] at hne ⊢
  simpa using hne

/-- Witness for C10: the field `amount` present with the number 0. -/
theorem validate_falsy_field_reported_witness :
    "amount" ∈ (validate_mapped_data
      { mapped_data := [("amount", .num 0)], confidence := 0,
        original_file := "", requires_review := false }).missing_fields ∧
    (validate_mapped_data
      { mapped_data := [("amount", .num 0)], confidence := 0,
        original_file := "", requires_review := false }).is_valid = false :=
  validate_falsy_field_reported
    { mapped_data := [("amount", .num 0)], confidence := 0,
      original_file := "", requires_review := false }
    "amount" (.num 0) (by decide) (by decide) (by decide)

/-- Claim C3: the recorded extraction method is `ocr` iff the OCR adapter
ran (the stripped native text has fewer than 100 characters) and the OCR
text is strictly longer than the native text; otherwise it is the native
tag, which the source spells `pdfplumber` (the spec's enum value `native`).
The tag is always one of these two values. -/
theorem extraction_method_selection (pdf_path : PyStr) (now : String)
    (pr : PdfplumberResult) (ocr : OcrResult) (tab : List TabulaFrame)
    (cam : List CamelotTable) (service : AIRequest → Except String AIResult) :
    ((process_pdf_comprehensive pdf_path now pr ocr tab cam service).extraction_method = "ocr" ↔
      ((pyStrip pr.text).length < 100 ∧ ocr.text.length > pr.text.length)) ∧
    ((process_pdf_comprehensive pdf_path now pr ocr tab cam service).extraction_method = "ocr" ∨
     (process_pdf_comprehensive pdf_path now pr ocr tab cam service).extraction_method
       = "pdfplumber") := by
  unfold process_pdf_comprehensive
  by_cases h1 : (pyStrip pr.text).length < 100
  · by_cases h2 : ocr.text.length > pr.text.length
    · simp [h1, h2]
    · simp [h1, h2]
  · simp [h1]

/-- Counterexample to claim C4 as stated: with no native tables, no tabula
tables, and one camelot table, the unified table sequence has length 0, not
0 + 0 + 1 — camelot tables are extracted and counted in the diagnostics but
never added to the unified list. -/
theorem unified_tables_camelot_counterexample :
    (process_pdf_comprehensive (pystr "x.pdf") "t" emptyPr emptyOcr []
        [{ table_num := 1, accuracy := 0, whitespace := 0, records := [] }]
        (fun _ => .error "net")).tables_found = 0 ∧
    (process_pdf_comprehensive (pystr "x.pdf") "t" emptyPr emptyOcr []
        [{ table_num := 1, accuracy := 0, whitespace := 0, records := [] }]
        (fun _ => .error "net")).processing_results.camelot_tables = 1 ∧
    (0 : Nat) ≠ 0 + 0 + 1 := by
  refine ⟨rfl, rfl, by decide⟩

/-- Claim C4 (amended): the unified table sequence is order-preserving and
count-additive over the native (pdfplumber) tables and the tabula tables
only: its length is native + tabula, the native tables come first in order,
the tabula tables follow in order each tagged with source `tabula`, and no
deduplication happens.  Camelot tables are excluded from the unified
sequence (they are only counted in the diagnostics), so the downstream
result is unchanged under any camelot output, including all-empty adapter
outputs. -/
theorem table_unification_amended (pdf_path : PyStr) (now : String)
    (pr : PdfplumberResult) (ocr : OcrResult) (tab : List TabulaFrame)
    (cam cam2 : List CamelotTable) (service : AIRequest → Except String AIResult) :
    (process_pdf_comprehensive pdf_path now pr ocr tab cam service).tables_found
      = pr.tables.length + tab.length ∧
    (process_pdf_comprehensive pdf_path now pr ocr tab cam
        service).processing_results.pdfplumber.tables.take pr.tables.length = pr.tables ∧
    (process_pdf_comprehensive pdf_path now pr ocr tab cam
        service).processing_results.pdfplumber.tables.drop pr.tables.length
      = tagTabulaTables tab ∧
    (∀ t ∈ tagTabulaTables tab, t.isTabula = true) ∧
    (tagTabulaTables tab).length = tab.length ∧
    (process_pdf_comprehensive pdf_path now pr ocr tab cam service).carbon_data
      = (process_pdf_comprehensive pdf_path now pr ocr tab cam2 service).carbon_data ∧
    (process_pdf_comprehensive pdf_path now pr ocr tab cam service).tables_found
      = (process_pdf_comprehensive pdf_path now pr ocr tab cam2 service).tables_found := by
  refine ⟨?_, ?_, ?_, ?_, ?_, rfl, rfl⟩
  · show (pr.tables ++ tagTabulaTables tab).length = pr.tables.length + tab.length
    simp [tagTabulaTables]
  · show (pr.tables ++ tagTabulaTables tab).take pr.tables.length = pr.tables
    exact List.take_left pr.tables (tagTabulaTables tab)
  · show (pr.tables ++ tagTabulaTables tab).drop pr.tables.length = tagTabulaTables tab
    exact List.drop_left pr.tables (tagTabulaTables tab)
  · intro t ht
    simp only [tagTabulaTables, List.mem_map] at ht
    obtain ⟨p, _, hp⟩ := ht
    rw [← hp]
    rfl
  · simp [tagTabulaTables]

/-- Claim C9: `all_tables` aliases the pdfplumber result's table list, so
when tabula returns k > 0 tables the recorded pdfplumber diagnostic result
contains them too: its table list is the native list followed by the k
tabula-tagged tables, it differs from the adapter's original list, and
`tables_found` counts the combined list. -/
theorem pdfplumber_tables_mutation (pdf_path : PyStr) (now : String)
    (pr : PdfplumberResult) (ocr : OcrResult) (tab : List TabulaFrame)
    (cam : List CamelotTable) (service : AIRequest → Except String AIResult)
    (hk : 0 < tab.length) :
    (process_pdf_comprehensive pdf_path now pr ocr tab cam
        service).processing_results.pdfplumber.tables
      = pr.tables ++ tagTabulaTables tab ∧
    (process_pdf_comprehensive pdf_path now pr ocr tab cam
        service).processing_results.pdfplumber.tables.length
      = pr.tables.length + tab.length ∧
    (process_pdf_comprehensive pdf_path now pr ocr tab cam
        service).processing_results.pdfplumber.tables ≠ pr.tables ∧
    (process_pdf_comprehensive pdf_path now pr ocr tab cam service).tables_found
      = (process_pdf_comprehensive pdf_path now pr ocr tab cam
          service).processing_results.pdfplumber.tables.length := by
  refine ⟨rfl, ?_, ?_, rfl⟩
  · show (pr.tables ++ tagTabulaTables tab).length = pr.tables.length + tab.length
    simp [tagTabulaTables]
  · show pr.tables ++ tagTabulaTables tab ≠ pr.tables
    intro heq
    have hlen := congrArg List.length heq
    rw [List.length_append] at hlen
    have htl : (tagTabulaTables tab).length = tab.length := by simp [tagTabulaTables]
    rw [htl] at hlen
    omega

/-- A pdfplumber result holding one native table, for the C9 witness. -/
def oneTablePr : PdfplumberResult :=
  { text := [], tables := [UnifiedTable.native 1 1 [] []], error := Option.none }

/-- The concrete record for the C9 witness: one native table, one tabula
table. -/
def c9sample : FinalResult :=
  process_pdf_comprehensive (pystr "x.pdf") "t" oneTablePr emptyOcr
    [{ records := [] }] [] (fun _ => .error "net")

/-- Witness for C9: one native table and one tabula table. -/
theorem pdfplumber_tables_mutation_witness :
    c9sample.processing_results.pdfplumber.tables
      = oneTablePr.tables ++ tagTabulaTables [{ records := [] }] ∧
    c9sample.processing_results.pdfplumber.tables.length
      = oneTablePr.tables.length + 1 ∧
    c9sample.processing_results.pdfplumber.tables ≠ oneTablePr.tables ∧
    c9sample.tables_found = c9sample.processing_results.pdfplumber.tables.length :=
  pdfplumber_tables_mutation (pystr "x.pdf") "t" oneTablePr emptyOcr
    [{ records := [] }] [] (fun _ => .error "net") (by decide)

/-- Claim C2: the batch record always has one result per input in order;
an input whose pipeline run raises is recorded as the error placeholder
(filename, error string, timestamp) while the others carry their records;
`successful + failed = total`; `success_rate = successful / total` with 0
for an empty batch, and an empty batch yields the all-zero summary with an
empty results list. -/
theorem batch_process_isolation (pipeline : PyStr → Except String FinalResult)
    (now batch_id : String) (pdf_paths : List PyStr) :
    (batch_process_pdfs pipeline now batch_id pdf_paths).results.length = pdf_paths.length ∧
    (batch_process_pdfs pipeline now batch_id pdf_paths).total_files = pdf_paths.length ∧
    (batch_process_pdfs pipeline now batch_id pdf_paths).successful +
      (batch_process_pdfs pipeline now batch_id pdf_paths).failed = pdf_paths.length ∧
    (∀ k : Nat, ∀ p : PyStr, pdf_paths[k]? = some p →
       (∀ e, pipeline p = .error e →
          (batch_process_pdfs pipeline now batch_id pdf_paths).results[k]?
            = some (.err (pathName p) e now)) ∧
       (∀ r, pipeline p = .ok r →
          (batch_process_pdfs pipeline now batch_id pdf_paths).results[k]?
            = some (.ok r))) ∧
    (batch_process_pdfs pipeline now batch_id pdf_paths).success_rate
      = (if pdf_paths.length = 0 then 0
         else ((batch_process_pdfs pipeline now batch_id pdf_paths).successful : ℚ)
                / (pdf_paths.length : ℚ)) ∧
    (pdf_paths = [] →
       (batch_process_pdfs pipeline now batch_id pdf_paths).total_files = 0 ∧
       (batch_process_pdfs pipeline now batch_id pdf_paths).successful = 0 ∧
       (batch_process_pdfs pipeline now batch_id pdf_paths).failed = 0 ∧
       (batch_process_pdfs pipeline now batch_id pdf_paths).success_rate = 0 ∧
       (batch_process_pdfs pipeline now batch_id pdf_paths).results = []) := by
  refine ⟨?_, rfl, ?_, ?_, ?_, ?_⟩
  · simp [batch_process_pdfs]
  · have h := batchItem_countP_split (pdf_paths.map (batchItem pipeline now))
    simpa [batch_process_pdfs] using h
  · intro k p hk
    constructor
    · intro e he
      simp [batch_process_pdfs, hk, batchItem, he]
    · intro r hr
      simp [batch_process_pdfs, hk, batchItem, hr]
  · by_cases h : pdf_paths = []
    · subst h
      simp [batch_process_pdfs]
    · have h1 : pdf_paths.isEmpty = false := by simpa [List.isEmpty_iff] using h
      have h2 : ¬pdf_paths.length = 0 := by simpa [List.length_eq_zero] using h
      simp [batch_process_pdfs, h1, h2]
  · intro h
    subst h
    exact ⟨rfl, rfl, rfl, by simp [batch_process_pdfs], rfl⟩

/-- The record a successful sample pipeline run returns, for the C2
witness. -/
def sampleFinal : FinalResult :=
  process_pdf_comprehensive (pystr "good.pdf") "t" emptyPr emptyOcr [] []
    (fun _ => .error "net")

/-- A pipeline oracle that raises exactly on `bad.pdf`, for the C2
witness. -/
def samplePipeline : PyStr → Except String FinalResult :=
  fun p => if p = pystr "bad.pdf" then .error "boom" else .ok sampleFinal

/-- Witness for C2: a two-file batch whose second item raises. -/
theorem batch_process_isolation_witness :
    (batch_process_pdfs samplePipeline "t" "b1"
        [pystr "good.pdf", pystr "bad.pdf"]).results[0]? = some (.ok sampleFinal) ∧
    (batch_process_pdfs samplePipeline "t" "b1"
        [pystr "good.pdf", pystr "bad.pdf"]).results[1]?
      = some (.err (pathName (pystr "bad.pdf")) "boom" "t") ∧
    (batch_process_pdfs samplePipeline "t" "b1"
        [pystr "good.pdf", pystr "bad.pdf"]).results.length = 2 := by
  have h := batch_process_isolation samplePipeline "t" "b1"
    [pystr "good.pdf", pystr "bad.pdf"]
  refine ⟨?_, ?_, h.1⟩
  · refine (h.2.2.2.1 0 (pystr "good.pdf") rfl).2 sampleFinal ?_
    show (if pystr "good.pdf" = pystr "bad.pdf" then (Except.error "boom" : Except String FinalResult)
          else .ok sampleFinal) = .ok sampleFinal
    rw [if_neg (by decide)]
  · refine (h.2.2.2.1 1 (pystr "bad.pdf") rfl).1 "boom" ?_
    show (if pystr "bad.pdf" = pystr "bad.pdf" then (Except.error "boom" : Except String FinalResult)
          else .ok sampleFinal) = .error "boom"
    rw [if_pos rfl]

/-- Casting an integer list sum to the rationals distributes over the
list. -/
theorem sum_map_ratCast (cs : List Int) :
    (cs.map (fun c : ℤ => (c : ℚ))).sum = ((cs.sum : ℤ) : ℚ) := by
  induction cs with
  | nil => simp
  | cons a t ih => rw [List.map_cons, List.sum_cons, ih, List.sum_cons, Int.cast_add]

/-- Claim C7: the page confidence is the mean of the token confidences that
are strictly positive (non-positive tokens are excluded), it is 0 when no
token has positive confidence, and — under pytesseract's contract that each
token confidence is at most 100 — it lies in [0, 100]. -/
theorem avg_confidence_spec (token_confs : List Int)
    (hub : ∀ c ∈ token_confs, c ≤ 100) :
    (token_confs.filter (fun c => decide (0 < c)) = [] →
       avg_confidence token_confs = 0) ∧
    (token_confs.filter (fun c => decide (0 < c)) ≠ [] →
       avg_confidence token_confs
         = ((token_confs.filter (fun c => decide (0 < c))).map (fun c : ℤ => (c : ℚ))).sum
             / ((token_confs.filter (fun c => decide (0 < c))).length : ℚ)) ∧
    0 ≤ avg_confidence token_confs ∧ avg_confidence token_confs ≤ 100 := by
  have hunfold : avg_confidence token_confs =
      if (token_confs.filter (fun c => decide (0 < c))).isEmpty then 0
      else ((token_confs.filter (fun c => decide (0 < c))).map (fun c : ℤ => (c : ℚ))).sum
             / ((token_confs.filter (fun c => decide (0 < c))).length : ℚ) := rfl
  have hpos : ∀ c ∈ token_confs.filter (fun c => decide (0 < c)), 0 < c := by
    intro c hc
    have := (List.mem_filter.mp hc).2
    simpa using this
  have hle : ∀ c ∈ token_confs.filter (fun c => decide (0 < c)), c ≤ 100 := by
    intro c hc
    exact hub c (List.mem_of_mem_filter hc)
  by_cases h : token_confs.filter (fun c => decide (0 < c)) = []
  · rw [hunfold]
    simp [h]
  · have hne : (token_confs.filter (fun c => decide (0 < c))).isEmpty = false := by
      simpa [List.isEmpty_iff] using h
    have hval : avg_confidence token_confs
        = ((token_confs.filter (fun c => decide (0 < c))).map (fun c : ℤ => (c : ℚ))).sum
            / ((token_confs.filter (fun c => decide (0 < c))).length : ℚ) := by
      rw [hunfold, hne]
      simp
    have hlenpos : (0 : ℚ) < ((token_confs.filter (fun c => decide (0 < c))).length : ℚ) := by
      have := List.length_pos.mpr h
      exact_mod_cast this
    have hsum_nonneg_z : (0 : ℤ) ≤ (token_confs.filter (fun c => decide (0 < c))).sum :=
      List.sum_nonneg (fun c hc => (hpos c hc).le)
    have hsum_le_z : (token_confs.filter (fun c => decide (0 < c))).sum
        ≤ 100 * ((token_confs.filter (fun c => decide (0 < c))).length : ℤ) := by
      have hmono := List.sum_le_card_nsmul (token_confs.filter (fun c => decide (0 < c))) 100 hle
      rw [nsmul_eq_mul] at hmono
      linarith
    refine ⟨fun hcontra => absurd hcontra h, fun _ => hval, ?_, ?_⟩
    · rw [hval, sum_map_ratCast]
      apply div_nonneg _ hlenpos.le
      exact_mod_cast hsum_nonneg_z
    · rw [hval, div_le_iff₀ hlenpos, sum_map_ratCast]
      exact_mod_cast hsum_le_z

/-- Witness for C7 at the token column [95, -1, 0, 85]: the non-positive
tokens do not enter the mean and the result is within bounds. -/
theorem avg_confidence_spec_witness :
    0 ≤ avg_confidence [95, -1, 0, 85] ∧ avg_confidence [95, -1, 0, 85] ≤ 100 ∧
    avg_confidence [95, -1, 0, 85]
      = (([95, -1, 0, 85].filter (fun c => decide (0 < c))).map (fun c : ℤ => (c : ℚ))).sum
          / (([95, -1, 0, 85].filter (fun c => decide (0 < c))).length : ℚ) := by
  have h := avg_confidence_spec [95, -1, 0, 85] (by decide)
  exact ⟨h.2.2.1, h.2.2.2, h.2.1 (by decide)⟩

/-- A single camelot table, used as a concrete sample input. -/
def oneCamelot : List CamelotTable :=
  [{ table_num := 1, accuracy := 0, whitespace := 0, records := [] }]

/-- Witness for the amended C4: one native table, one tabula table and one
camelot table; the unified count is 2 and the carbon payload is unchanged
when the camelot output is dropped. -/
theorem table_unification_amended_witness :
    (process_pdf_comprehensive (pystr "x.pdf") "t" oneTablePr emptyOcr [{ records := [] }]
        oneCamelot (fun _ => .error "net")).tables_found
      = oneTablePr.tables.length + 1 ∧
    (process_pdf_comprehensive (pystr "x.pdf") "t" oneTablePr emptyOcr [{ records := [] }]
        oneCamelot (fun _ => .error "net")).carbon_data
      = (process_pdf_comprehensive (pystr "x.pdf") "t" oneTablePr emptyOcr [{ records := [] }]
          [] (fun _ => .error "net")).carbon_data := by
  have h := table_unification_amended (pystr "x.pdf") "t" oneTablePr emptyOcr
    [{ records := [] }] oneCamelot [] (fun _ => .error "net")
  exact ⟨h.1, h.2.2.2.2.2.1⟩

/-- Witness for the amended C8 at the source's own schema template (whose
`amount` is 0 and therefore reported). -/
theorem validate_missing_fields_amended_witness :
    ((validate_mapped_data
        (map_to_carbon_schema (extract_text_from_file "e.pdf" "t") 2024)).is_valid = true ↔
     (validate_mapped_data
        (map_to_carbon_schema (extract_text_from_file "e.pdf" "t") 2024)).missing_fields
       = []) ∧
    ((process_file "e.pdf" 2024 "t").requires_review = true ↔
     (process_file "e.pdf" 2024 "t").missing_fields ≠ []) := by
  have h := validate_missing_fields_amended
    (map_to_carbon_schema (extract_text_from_file "e.pdf" "t") 2024)
  exact ⟨h.2.1, h.2.2 "e.pdf" 2024 "t"⟩
